import Mathlib

/-!
Shallow embedding of the LED module (`src/led.c`, V1.2.0 line of the
repository) and proofs about it.

Modelling conventions:
* `float32_t` fields are embedded as exact rationals (`ℚ`); the claims under
  study concern the algorithmic (real-number) behaviour of the duty engine,
  blink timer and state machine, not bit-level float rounding.
* The C functions operate on `g_led[num]`; every function below acts on the
  single record `Led` that the C code reads and writes, with the index check
  `num < eLED_NUM_OF` carried as explicit `Nat` arguments `num`, `numOf`.
* The `gb_is_init` guard is passed explicitly as a `Bool`.
* An output pointer is represented by a `Bool` saying whether it is NULL;
  a query returns `some v` when the C code writes `v` through the pointer
  and `none` when it performs no write.
* `LED_HNDL_PERIOD_S` is a compile-time configuration value
  (`LED_CFG_HNDL_PERIOD_MS / 1000`); it is a parameter `dt` here.
-/

namespace LedSpec

/-- LED mode, mirroring `led_mode_t` in led.c. -/
inductive LedMode
  | NORMAL
  | FADE_IN
  | FADE_OUT
  | FADE_TOGGLE
  | BLINK
  | FADE_BLINK
deriving DecidableEq, Repr

/-- Return status, mirroring `led_status_t` in led.h. -/
inductive led_status_t
  | eLED_OK
  | eLED_ERROR
  | eLED_ERROR_INIT
deriving DecidableEq, Repr

/-- LED on/off state, mirroring `led_state_t`. -/
inductive led_state_t
  | eLED_OFF
  | eLED_ON
deriving DecidableEq, Repr

/-- Blink repetition request, mirroring `led_blink_t` in led.h. -/
inductive led_blink_t
  | eLED_BLINK_1X
  | eLED_BLINK_2X
  | eLED_BLINK_3X
  | eLED_BLINK_4X
  | eLED_BLINK_5X
  | eLED_BLINK_CONTINUOUS
deriving DecidableEq, Repr

/-- The value of the C cast `(uint8_t) blink` (the enum ordinal). -/
def led_blink_t.toUint8 : led_blink_t → Nat
  | .eLED_BLINK_1X => 0
  | .eLED_BLINK_2X => 1
  | .eLED_BLINK_3X => 2
  | .eLED_BLINK_4X => 3
  | .eLED_BLINK_5X => 4
  | .eLED_BLINK_CONTINUOUS => 5

/-- Fade configuration, mirroring `led_fade_cfg_t` in led.h. -/
structure led_fade_cfg_t where
  fade_in_time : ℚ
  fade_out_time : ℚ
  max_duty : ℚ
  min_duty : ℚ
deriving DecidableEq, Repr

/-- Per-LED runtime record, mirroring `led_t` in led.c.
`blink_cnt` is the `uint8_t` counter (value `255` is the continuous
sentinel `LED_BLINK_CNT_CONT_VAL`). -/
structure Led where
  duty : ℚ
  max_duty : ℚ
  min_duty : ℚ
  fade_time : ℚ
  fade_in_k : ℚ
  fade_out_k : ℚ
  fade_out_time : ℚ
  period : ℚ
  per_time : ℚ
  on_time : ℚ
  active_time : ℚ
  mode : LedMode
  blink_cnt : Nat
deriving DecidableEq, Repr

/-- `LED_TIME_LIMIT_S` (1E6 seconds). -/
def LED_TIME_LIMIT_S : ℚ := 1000000

/-- `LED_TIME_LIM` macro. -/
def ledTimeLim (t : ℚ) : ℚ :=
  if t > LED_TIME_LIMIT_S then LED_TIME_LIMIT_S else t

/-- `LED_BLINK_CNT_CONT_VAL` (0xFF). -/
def LED_BLINK_CNT_CONT_VAL : Nat := 255

/-- `led_manage_time`: active-time tracker. -/
def led_manage_time (dt : ℚ) (l : Led) : Led :=
  if l.duty ≥ l.max_duty / 2 then
    { l with active_time := ledTimeLim (l.active_time + dt) }
  else
    { l with active_time := 0 }

/-- `led_fade_in_hndl`: fade-in FSM state. -/
def led_fade_in_hndl (dt : ℚ) (exit_mode : LedMode) (l : Led) : Led :=
  let duty := l.duty + l.fade_in_k * l.fade_time * dt
  if duty ≤ l.max_duty then
    { l with duty := duty, fade_time := ledTimeLim (l.fade_time + dt) }
  else
    { l with duty := l.max_duty, fade_time := 0, mode := exit_mode }

/-- `led_fade_out_hndl`: fade-out FSM state. -/
def led_fade_out_hndl (dt : ℚ) (exit_mode : LedMode) (l : Led) : Led :=
  let time := l.fade_out_time - l.fade_time
  let duty := if time > 0 then l.duty - l.fade_out_k * (time * dt) else l.min_duty
  if duty > l.min_duty + 1/1000 then
    { l with duty := duty, fade_time := ledTimeLim (l.fade_time + dt) }
  else
    { l with duty := l.min_duty, fade_time := 0, mode := exit_mode }

/-- `led_is_on_time`: is the blink timer inside the ON sub-window. -/
def led_is_on_time (l : Led) : Bool :=
  if l.per_time < l.on_time then true else false

/-- `led_is_period_time`: period-elapsed predicate. -/
def led_is_period_time (l : Led) : Bool :=
  if l.per_time ≥ l.period then true else false

/-- `led_blink_cnt_hndl`: blink counter management. -/
def led_blink_cnt_hndl (l : Led) : Led :=
  if led_is_period_time l = true then
    if l.blink_cnt ≠ LED_BLINK_CNT_CONT_VAL then
      if l.blink_cnt = 0 then
        { l with mode := LedMode.NORMAL }
      else
        { l with blink_cnt := l.blink_cnt - 1 }
    else l
  else l

/-- `led_blink_hndl`: BLINK FSM state. -/
def led_blink_hndl (l : Led) : Led :=
  led_blink_cnt_hndl
    (if led_is_on_time l = true then { l with duty := l.max_duty }
     else { l with duty := l.min_duty })

/-- `led_fade_blink_hndl`: FADE_BLINK FSM state. -/
def led_fade_blink_hndl (dt : ℚ) (l : Led) : Led :=
  led_blink_cnt_hndl
    (if led_is_on_time l = true then led_fade_in_hndl dt LedMode.FADE_BLINK l
     else led_fade_out_hndl dt LedMode.FADE_BLINK l)

/-- `led_hndl_period_time`: period time keeping. -/
def led_hndl_period_time (dt : ℚ) (l : Led) : Led :=
  if l.per_time ≥ l.period then
    { l with per_time := 0 }
  else
    { l with per_time := l.per_time + dt }

/-- The mode-dispatch `switch` of `led_hndl` for one LED. -/
def led_dispatch (dt : ℚ) (l : Led) : Led :=
  match l.mode with
  | LedMode.NORMAL => l
  | LedMode.FADE_TOGGLE => l
  | LedMode.FADE_IN => led_fade_in_hndl dt LedMode.NORMAL l
  | LedMode.FADE_OUT => led_fade_out_hndl dt LedMode.NORMAL l
  | LedMode.BLINK => led_blink_hndl l
  | LedMode.FADE_BLINK => led_fade_blink_hndl dt l

/-- One loop iteration of `led_hndl` on `g_led[led_num]`: mode dispatch,
driver output (`led_set_low`, which does not change the record), period
time keeping, active-time management. -/
def led_hndl_one (dt : ℚ) (l : Led) : Led :=
  led_manage_time dt (led_hndl_period_time dt (led_dispatch dt l))

/-- `led_hndl`: the periodic handler over the whole LED table, guarded by
`gb_is_init`. The system state is the pair (gb_is_init, g_led). -/
def led_hndl (dt : ℚ) : Bool × List Led → led_status_t × (Bool × List Led)
  | (true, ls) => (led_status_t.eLED_OK, (true, ls.map (led_hndl_one dt)))
  | (false, ls) => (led_status_t.eLED_ERROR_INIT, (false, ls))

/-- The body of `led_set` once the guards have passed. -/
def led_set_one (state : led_state_t) (l : Led) : Led :=
  { l with mode := LedMode.NORMAL,
           duty := if state = led_state_t.eLED_ON then l.max_duty else l.min_duty }

/-- `led_set` command. -/
def led_set (is_init : Bool) (numOf num : Nat) (state : led_state_t) (l : Led) :
    led_status_t × Led :=
  if is_init = true then
    if num < numOf then
      (led_status_t.eLED_OK, led_set_one state l)
    else
      (led_status_t.eLED_ERROR, l)
  else
    (led_status_t.eLED_ERROR_INIT, l)

/-- `led_toggle` command. -/
def led_toggle (is_init : Bool) (numOf num : Nat) (l : Led) : led_status_t × Led :=
  if is_init = true then
    if num < numOf then
      (led_status_t.eLED_OK,
        { l with mode := LedMode.NORMAL,
                 duty := if l.duty ≥ l.max_duty then l.min_duty else l.max_duty })
    else
      (led_status_t.eLED_ERROR, l)
  else
    (led_status_t.eLED_ERROR_INIT, l)

/-- `led_blink` command. -/
def led_blink (is_init : Bool) (numOf num : Nat) (on_time period : ℚ)
    (blink : led_blink_t) (l : Led) : led_status_t × Led :=
  if is_init = true then
    if num < numOf ∧ on_time < period ∧ l.mode = LedMode.NORMAL then
      (led_status_t.eLED_OK,
        { l with mode := LedMode.BLINK,
                 on_time := on_time,
                 period := period,
                 per_time := 0,
                 blink_cnt :=
                   if blink = led_blink_t.eLED_BLINK_CONTINUOUS then
                     LED_BLINK_CNT_CONT_VAL
                   else blink.toUint8 })
    else
      (led_status_t.eLED_ERROR, l)
  else
    (led_status_t.eLED_ERROR_INIT, l)

/-- `led_set_smooth` command. Note: the C code checks only the init guard
and the index; it does not examine the current mode. -/
def led_set_smooth (is_init : Bool) (numOf num : Nat) (state : led_state_t)
    (l : Led) : led_status_t × Led :=
  if is_init = true then
    if num < numOf then
      (led_status_t.eLED_OK,
        { l with mode := if state = led_state_t.eLED_ON then LedMode.FADE_IN
                         else LedMode.FADE_OUT })
    else
      (led_status_t.eLED_ERROR, l)
  else
    (led_status_t.eLED_ERROR_INIT, l)

/-- `led_blink_smooth` command. -/
def led_blink_smooth (is_init : Bool) (numOf num : Nat) (on_time period : ℚ)
    (blink : led_blink_t) (l : Led) : led_status_t × Led :=
  if is_init = true then
    if num < numOf ∧ on_time < period ∧ l.mode = LedMode.NORMAL then
      (led_status_t.eLED_OK,
        { l with mode := LedMode.FADE_BLINK,
                 on_time := on_time,
                 period := period,
                 per_time := 0,
                 blink_cnt :=
                   if blink = led_blink_t.eLED_BLINK_CONTINUOUS then
                     LED_BLINK_CNT_CONT_VAL
                   else blink.toUint8 })
    else
      (led_status_t.eLED_ERROR, l)
  else
    (led_status_t.eLED_ERROR_INIT, l)

/-- `led_set_fade_cfg` command; `p_fade_cfg` is `none` for a NULL pointer. -/
def led_set_fade_cfg (is_init : Bool) (numOf num : Nat)
    (p_fade_cfg : Option led_fade_cfg_t) (l : Led) : led_status_t × Led :=
  if is_init = true then
    match p_fade_cfg with
    | some cfg =>
      if num < numOf ∧ l.mode = LedMode.NORMAL then
        (led_status_t.eLED_OK,
          { l with max_duty := cfg.max_duty,
                   min_duty := cfg.min_duty,
                   fade_in_k :=
                     2 * (cfg.max_duty - cfg.min_duty) /
                       (cfg.fade_in_time * cfg.fade_in_time),
                   fade_out_k :=
                     2 * (cfg.max_duty - cfg.min_duty) /
                       (cfg.fade_out_time * cfg.fade_out_time),
                   fade_out_time := cfg.fade_out_time })
      else
        (led_status_t.eLED_ERROR, l)
    | none => (led_status_t.eLED_ERROR, l)
  else
    (led_status_t.eLED_ERROR_INIT, l)

/-- `led_deinit`: restores the LED to its configured initial state via
`led_set` (the init flag is still true during the loop) and clears the
init flag. State is (gb_is_init, record). -/
def led_deinit (initial_state : led_state_t) :
    Bool × Led → led_status_t × (Bool × Led)
  | (true, l) => (led_status_t.eLED_OK, (false, led_set_one initial_state l))
  | (false, l) => (led_status_t.eLED_OK, (false, l))

/-- The per-LED record produced by `led_init` (field assignments followed by
`led_set(num, initial_state)`). -/
def ledInitRecord (initial_state : led_state_t) : Led :=
  led_set_one initial_state
    { duty := 0, max_duty := 100, min_duty := 0, fade_time := 0,
      fade_in_k := 2, fade_out_k := 2, fade_out_time := 1,
      period := 0, per_time := 0, on_time := 0, active_time := 0,
      mode := LedMode.NORMAL, blink_cnt := 0 }

/-- `led_is_idle` query; `p_is_null` says whether `p_is_idle` is NULL.
The second component is `some v` when the C code writes `v` through the
pointer. -/
def led_is_idle (is_init : Bool) (numOf num : Nat) (p_is_null : Bool)
    (l : Led) : led_status_t × Option Bool :=
  if is_init = true then
    if num < numOf ∧ p_is_null = false then
      (led_status_t.eLED_OK, some (decide (l.mode = LedMode.NORMAL)))
    else
      (led_status_t.eLED_ERROR, none)
  else
    (led_status_t.eLED_ERROR_INIT, none)

/-- `led_is_on` query. The C code calls `led_is_idle(num, &is_idle)` with a
local (never NULL) pointer and then stores through `p_is_on` without any
NULL check, so the write happens regardless of `p_is_null`. -/
def led_is_on (is_init : Bool) (numOf num : Nat) (p_is_null : Bool)
    (l : Led) : led_status_t × Option Bool :=
  match led_is_idle is_init numOf num false l with
  | (led_status_t.eLED_OK, some is_idle) =>
      (led_status_t.eLED_OK, some (!is_idle || decide (l.duty ≠ 0)))
  | (st, _) => (st, none)

/-- `led_get_active_time` query. -/
def led_get_active_time (is_init : Bool) (numOf num : Nat) (p_is_null : Bool)
    (l : Led) : led_status_t × Option ℚ :=
  if is_init = true then
    if num < numOf ∧ p_is_null = false then
      (led_status_t.eLED_OK, some l.active_time)
    else
      (led_status_t.eLED_ERROR, none)
  else
    (led_status_t.eLED_ERROR_INIT, none)

/-- `led_is_init` query. -/
def led_is_init (gb_is_init : Bool) (p_is_null : Bool) :
    led_status_t × Option Bool :=
  if p_is_null = false then
    (led_status_t.eLED_OK, some gb_is_init)
  else
    (led_status_t.eLED_ERROR, none)

/-! ### Helper lemmas: field preservation of the handler phases -/

section FieldLemmas

variable (dt : ℚ) (l : Led)

@[simp] lemma led_manage_time_duty : (led_manage_time dt l).duty = l.duty := by
  unfold led_manage_time; split <;> rfl

@[simp] lemma led_manage_time_max_duty : (led_manage_time dt l).max_duty = l.max_duty := by
  unfold led_manage_time; split <;> rfl

@[simp] lemma led_manage_time_min_duty : (led_manage_time dt l).min_duty = l.min_duty := by
  unfold led_manage_time; split <;> rfl

@[simp] lemma led_manage_time_fade_time : (led_manage_time dt l).fade_time = l.fade_time := by
  unfold led_manage_time; split <;> rfl

@[simp] lemma led_manage_time_period : (led_manage_time dt l).period = l.period := by
  unfold led_manage_time; split <;> rfl

@[simp] lemma led_manage_time_per_time : (led_manage_time dt l).per_time = l.per_time := by
  unfold led_manage_time; split <;> rfl

@[simp] lemma led_manage_time_on_time : (led_manage_time dt l).on_time = l.on_time := by
  unfold led_manage_time; split <;> rfl

@[simp] lemma led_manage_time_mode : (led_manage_time dt l).mode = l.mode := by
  unfold led_manage_time; split <;> rfl

@[simp] lemma led_manage_time_blink_cnt : (led_manage_time dt l).blink_cnt = l.blink_cnt := by
  unfold led_manage_time; split <;> rfl

@[simp] lemma led_hndl_period_time_duty : (led_hndl_period_time dt l).duty = l.duty := by
  unfold led_hndl_period_time; split <;> rfl

@[simp] lemma led_hndl_period_time_max_duty :
    (led_hndl_period_time dt l).max_duty = l.max_duty := by
  unfold led_hndl_period_time; split <;> rfl

@[simp] lemma led_hndl_period_time_min_duty :
    (led_hndl_period_time dt l).min_duty = l.min_duty := by
  unfold led_hndl_period_time; split <;> rfl

@[simp] lemma led_hndl_period_time_fade_time :
    (led_hndl_period_time dt l).fade_time = l.fade_time := by
  unfold led_hndl_period_time; split <;> rfl

@[simp] lemma led_hndl_period_time_period :
    (led_hndl_period_time dt l).period = l.period := by
  unfold led_hndl_period_time; split <;> rfl

@[simp] lemma led_hndl_period_time_on_time :
    (led_hndl_period_time dt l).on_time = l.on_time := by
  unfold led_hndl_period_time; split <;> rfl

@[simp] lemma led_hndl_period_time_mode : (led_hndl_period_time dt l).mode = l.mode := by
  unfold led_hndl_period_time; split <;> rfl

@[simp] lemma led_hndl_period_time_blink_cnt :
    (led_hndl_period_time dt l).blink_cnt = l.blink_cnt := by
  unfold led_hndl_period_time; split <;> rfl

@[simp] lemma led_blink_cnt_hndl_duty : (led_blink_cnt_hndl l).duty = l.duty := by
  unfold led_blink_cnt_hndl; split <;> [skip; rfl]; split <;> [skip; rfl]; split <;> rfl

@[simp] lemma led_blink_cnt_hndl_max_duty : (led_blink_cnt_hndl l).max_duty = l.max_duty := by
  unfold led_blink_cnt_hndl; split <;> [skip; rfl]; split <;> [skip; rfl]; split <;> rfl

@[simp] lemma led_blink_cnt_hndl_min_duty : (led_blink_cnt_hndl l).min_duty = l.min_duty := by
  unfold led_blink_cnt_hndl; split <;> [skip; rfl]; split <;> [skip; rfl]; split <;> rfl

@[simp] lemma led_blink_cnt_hndl_fade_time :
    (led_blink_cnt_hndl l).fade_time = l.fade_time := by
  unfold led_blink_cnt_hndl; split <;> [skip; rfl]; split <;> [skip; rfl]; split <;> rfl

@[simp] lemma led_blink_cnt_hndl_period : (led_blink_cnt_hndl l).period = l.period := by
  unfold led_blink_cnt_hndl; split <;> [skip; rfl]; split <;> [skip; rfl]; split <;> rfl

@[simp] lemma led_blink_cnt_hndl_per_time : (led_blink_cnt_hndl l).per_time = l.per_time := by
  unfold led_blink_cnt_hndl; split <;> [skip; rfl]; split <;> [skip; rfl]; split <;> rfl

@[simp] lemma led_blink_cnt_hndl_on_time : (led_blink_cnt_hndl l).on_time = l.on_time := by
  unfold led_blink_cnt_hndl; split <;> [skip; rfl]; split <;> [skip; rfl]; split <;> rfl

end FieldLemmas

section DispatchLemmas

lemma dispatch_of_fade_in (dt : ℚ) (l : Led) (h : l.mode = LedMode.FADE_IN) :
    led_dispatch dt l = led_fade_in_hndl dt LedMode.NORMAL l := by
  unfold led_dispatch; rw [h]

lemma dispatch_of_fade_out (dt : ℚ) (l : Led) (h : l.mode = LedMode.FADE_OUT) :
    led_dispatch dt l = led_fade_out_hndl dt LedMode.NORMAL l := by
  unfold led_dispatch; rw [h]

lemma dispatch_of_blink (dt : ℚ) (l : Led) (h : l.mode = LedMode.BLINK) :
    led_dispatch dt l = led_blink_hndl l := by
  unfold led_dispatch; rw [h]

lemma dispatch_of_fade_blink (dt : ℚ) (l : Led) (h : l.mode = LedMode.FADE_BLINK) :
    led_dispatch dt l = led_fade_blink_hndl dt l := by
  unfold led_dispatch; rw [h]

lemma dispatch_of_normal (dt : ℚ) (l : Led) (h : l.mode = LedMode.NORMAL) :
    led_dispatch dt l = l := by
  unfold led_dispatch; rw [h]

lemma dispatch_of_fade_toggle (dt : ℚ) (l : Led) (h : l.mode = LedMode.FADE_TOGGLE) :
    led_dispatch dt l = l := by
  unfold led_dispatch; rw [h]

end DispatchLemmas

section FadeLemmas

/-- Case analysis of `led_fade_in_hndl`, read off the two branches of the C code. -/
lemma fade_in_cases (dt : ℚ) (em : LedMode) (l : Led) :
    (l.duty + l.fade_in_k * l.fade_time * dt ≤ l.max_duty ∧
      led_fade_in_hndl dt em l =
        { l with duty := l.duty + l.fade_in_k * l.fade_time * dt,
                 fade_time := ledTimeLim (l.fade_time + dt) }) ∨
    (¬ (l.duty + l.fade_in_k * l.fade_time * dt ≤ l.max_duty) ∧
      led_fade_in_hndl dt em l =
        { l with duty := l.max_duty, fade_time := 0, mode := em }) := by
  unfold led_fade_in_hndl
  dsimp only []
  split
  · exact Or.inl ⟨by assumption, rfl⟩
  · exact Or.inr ⟨by assumption, rfl⟩

/-- Case analysis of `led_fade_out_hndl`, read off the two branches of the C code. -/
lemma fade_out_cases (dt : ℚ) (em : LedMode) (l : Led) :
    ((if l.fade_out_time - l.fade_time > 0
        then l.duty - l.fade_out_k * ((l.fade_out_time - l.fade_time) * dt)
        else l.min_duty) > l.min_duty + 1/1000 ∧
      led_fade_out_hndl dt em l =
        { l with duty := (if l.fade_out_time - l.fade_time > 0
                    then l.duty - l.fade_out_k * ((l.fade_out_time - l.fade_time) * dt)
                    else l.min_duty),
                 fade_time := ledTimeLim (l.fade_time + dt) }) ∨
    (¬ ((if l.fade_out_time - l.fade_time > 0
          then l.duty - l.fade_out_k * ((l.fade_out_time - l.fade_time) * dt)
          else l.min_duty) > l.min_duty + 1/1000) ∧
      led_fade_out_hndl dt em l =
        { l with duty := l.min_duty, fade_time := 0, mode := em }) := by
  unfold led_fade_out_hndl
  dsimp only []
  by_cases ht : l.fade_out_time - l.fade_time > 0
  · rw [if_pos ht]
    split
    · exact Or.inl ⟨by assumption, rfl⟩
    · exact Or.inr ⟨by assumption, rfl⟩
  · rw [if_neg ht]
    split
    · exact Or.inl ⟨by assumption, rfl⟩
    · exact Or.inr ⟨by assumption, rfl⟩

end FadeLemmas

/-! ### Concrete states used by counterexamples and witnesses -/

/-- A generic valid idle LED state. -/
def wLed : Led :=
  { duty := 0, max_duty := 100, min_duty := 0, fade_time := 0, fade_in_k := 2,
    fade_out_k := 2, fade_out_time := 1, period := 1, per_time := 0, on_time := 1/2,
    active_time := 0, mode := LedMode.NORMAL, blink_cnt := 0 }

/-- A LED mid fade-in. -/
def wFadeIn : Led := { wLed with mode := LedMode.FADE_IN }

/-- A LED mid fade-out. -/
def wFadeOut : Led := { wLed with mode := LedMode.FADE_OUT, duty := 50 }

/-- A LED mid continuous blink. -/
def wBlink : Led := { wLed with mode := LedMode.BLINK, blink_cnt := 255 }

/-- A LED whose blink period has just elapsed. -/
def wPer : Led := { wLed with per_time := 1 }

/-! ### Claims -/

/-- Claim C3: for a LED in FADE_IN mode, after a handler tick the duty never
exceeds max_duty, and on the tick where the mode transitions to NORMAL the
duty equals exactly max_duty and fade_time is reset to 0. -/
theorem C3_fade_in (dt : ℚ) (l : Led) (hm : l.mode = LedMode.FADE_IN) :
    (led_hndl_one dt l).duty ≤ (led_hndl_one dt l).max_duty ∧
    ((led_hndl_one dt l).mode = LedMode.NORMAL →
      (led_hndl_one dt l).duty = l.max_duty ∧ (led_hndl_one dt l).fade_time = 0) := by
  have hd := dispatch_of_fade_in dt l hm
  rcases fade_in_cases dt LedMode.NORMAL l with ⟨hle, heq⟩ | ⟨hgt, heq⟩
  · constructor
    · simp [led_hndl_one, hd, heq, hle]
    · intro hN
      simp [led_hndl_one, hd, heq, hm] at hN
  · constructor
    · simp [led_hndl_one, hd, heq]
    · intro _
      constructor <;> simp [led_hndl_one, hd, heq]

/-- Witness for C3 at a concrete fade-in state. -/
theorem C3_fade_in_witness :
    (led_hndl_one (1/100) wFadeIn).duty ≤ (led_hndl_one (1/100) wFadeIn).max_duty :=
  (C3_fade_in (1/100) wFadeIn rfl).1

/-- Claim C4: for a LED in FADE_OUT mode, a handler tick computes the
remaining time `fade_out_time - fade_time`; while positive the duty is
decremented by `fade_out_k * remaining * dt`, otherwise forced to min_duty;
the mode transitions to NORMAL exactly when the updated duty is within
1/1000 of min_duty, and on that tick duty is exactly min_duty and fade_time
is reset to 0. -/
theorem C4_fade_out (dt : ℚ) (l : Led) (hm : l.mode = LedMode.FADE_OUT) :
    ((led_hndl_one dt l).mode = LedMode.NORMAL ↔
      (if l.fade_out_time - l.fade_time > 0
         then l.duty - l.fade_out_k * ((l.fade_out_time - l.fade_time) * dt)
         else l.min_duty) ≤ l.min_duty + 1/1000) ∧
    ((led_hndl_one dt l).mode = LedMode.NORMAL →
      (led_hndl_one dt l).duty = l.min_duty ∧ (led_hndl_one dt l).fade_time = 0) ∧
    (¬ (led_hndl_one dt l).mode = LedMode.NORMAL →
      (led_hndl_one dt l).duty =
        (if l.fade_out_time - l.fade_time > 0
           then l.duty - l.fade_out_k * ((l.fade_out_time - l.fade_time) * dt)
           else l.min_duty) ∧
      (led_hndl_one dt l).fade_time = ledTimeLim (l.fade_time + dt)) := by
  have hd := dispatch_of_fade_out dt l hm
  rcases fade_out_cases dt LedMode.NORMAL l with ⟨hgt, heq⟩ | ⟨hle, heq⟩
  · refine ⟨?_, ?_, ?_⟩
    · simp [led_hndl_one, hd, heq, hm]
      simpa using hgt
    · intro hN
      simp [led_hndl_one, hd, heq, hm] at hN
    · intro _
      constructor <;> simp [led_hndl_one, hd, heq]
  · refine ⟨?_, ?_, ?_⟩
    · simp [led_hndl_one, hd, heq]
      simpa using not_lt.mp hle
    · intro _
      constructor <;> simp [led_hndl_one, hd, heq]
    · intro hN
      simp [led_hndl_one, hd, heq] at hN

/-- Witness for C4 at a concrete fade-out state. -/
theorem C4_fade_out_witness :
    ((led_hndl_one (1/100) wFadeOut).mode = LedMode.NORMAL ↔
      (if wFadeOut.fade_out_time - wFadeOut.fade_time > 0
         then wFadeOut.duty - wFadeOut.fade_out_k *
           ((wFadeOut.fade_out_time - wFadeOut.fade_time) * (1/100))
         else wFadeOut.min_duty) ≤ wFadeOut.min_duty + 1/1000) :=
  (C4_fade_out (1/100) wFadeOut rfl).1

/-- Step equation of `led_hndl_period_time` below the period. -/
lemma led_hndl_period_time_of_lt (dt : ℚ) (l : Led) (h : l.per_time < l.period) :
    led_hndl_period_time dt l = { l with per_time := l.per_time + dt } := by
  unfold led_hndl_period_time
  rw [if_neg (not_le.mpr h)]

/-- Step equation of `led_hndl_period_time` at or past the period. -/
lemma led_hndl_period_time_of_ge (dt : ℚ) (l : Led) (h : l.per_time ≥ l.period) :
    led_hndl_period_time dt l = { l with per_time := 0 } := by
  unfold led_hndl_period_time
  rw [if_pos h]

/-- Iterating `led_hndl_period_time` from `per_time = 0` accumulates `m * dt`
as long as the accumulated time stays below the period. -/
lemma period_iter_from_zero (dt : ℚ) (l : Led) (h0 : l.per_time = 0) :
    ∀ m : ℕ, (∀ i < m, (i : ℚ) * dt < l.period) →
      ((led_hndl_period_time dt)^[m] l).per_time = (m : ℚ) * dt ∧
      ((led_hndl_period_time dt)^[m] l).period = l.period := by
  intro m
  induction m with
  | zero => intro _; simp [h0]
  | succ m ih =>
    intro hm
    obtain ⟨hp, hpd⟩ := ih (fun i hi => hm i (Nat.lt_succ_of_lt hi))
    have hlt : ((led_hndl_period_time dt)^[m] l).per_time <
        ((led_hndl_period_time dt)^[m] l).period := by
      rw [hp, hpd]
      exact hm m (Nat.lt_succ_self m)
    rw [Function.iterate_succ_apply', led_hndl_period_time_of_lt dt _ hlt]
    constructor
    · show ((led_hndl_period_time dt)^[m] l).per_time + dt = _
      rw [hp]
      push_cast
      ring
    · exact hpd

/-- Claim C5: `per_time` increments by `dt` each tick and is explicitly reset
to 0 on the tick where `per_time >= period`; the period-elapsed predicate
holds exactly on that wrap tick, and for a positive period it cannot hold
again within any window of subsequent ticks whose accumulated time is still
below the period. -/
theorem C5_period_timer (dt : ℚ) (l : Led) (hdt : 0 ≤ dt) :
    (l.per_time ≥ l.period → (led_hndl_period_time dt l).per_time = 0) ∧
    (l.per_time < l.period →
      (led_hndl_period_time dt l).per_time = l.per_time + dt) ∧
    (led_is_period_time l = true ↔ l.per_time ≥ l.period) ∧
    (0 < l.period → led_is_period_time l = true →
      ∀ j : ℕ, (j : ℚ) * dt < l.period →
        led_is_period_time ((led_hndl_period_time dt)^[j+1] l) = false) := by
  refine ⟨?_, ?_, ?_, ?_⟩
  · intro h
    rw [led_hndl_period_time_of_ge dt l h]
  · intro h
    rw [led_hndl_period_time_of_lt dt l h]
  · unfold led_is_period_time
    split <;> simp [*]
  · intro hpos hev j hj
    have hge : l.per_time ≥ l.period := by
      unfold led_is_period_time at hev
      split at hev
      · assumption
      · exact absurd hev (by simp)
    rw [Function.iterate_succ_apply, led_hndl_period_time_of_ge dt l hge]
    obtain ⟨hp, hpd⟩ := period_iter_from_zero dt { l with per_time := 0 } rfl j
      (fun i hi => by
        have hij : (i : ℚ) ≤ (j : ℚ) := by exact_mod_cast hi.le
        calc (i : ℚ) * dt ≤ (j : ℚ) * dt := mul_le_mul_of_nonneg_right hij hdt
          _ < l.period := hj)
    have hneg : ¬ ((led_hndl_period_time dt)^[j] { l with per_time := 0 }).per_time ≥
        ((led_hndl_period_time dt)^[j] { l with per_time := 0 }).period := by
      rw [hp, hpd]
      exact not_le.mpr hj
    unfold led_is_period_time
    rw [if_neg hneg]

/-- Witness for C5: after a wrap with period 1 and dt 1/10, two further ticks
later the period-elapsed predicate is still false. -/
theorem C5_period_timer_witness :
    led_is_period_time ((led_hndl_period_time (1/10))^[3] wPer) = false :=
  (C5_period_timer (1/10) wPer (by norm_num)).2.2.2
    (by norm_num [wPer, wLed]) (by decide) 2 (by norm_num [wPer, wLed])

/-- Claim C6: `led_blink` on an initialized system with a valid index is
rejected with an error and no state change whenever the mode is not NORMAL
or `on_time >= period`; otherwise it enters BLINK mode, stores `on_time`
and `period`, resets `per_time` and loads the counter (255 sentinel for
continuous, else the cast enum count). -/
theorem C6_blink_guards (numOf num : Nat) (on_time period : ℚ) (b : led_blink_t)
    (l : Led) (hnum : num < numOf) :
    (¬ (on_time < period ∧ l.mode = LedMode.NORMAL) →
      led_blink true numOf num on_time period b l = (led_status_t.eLED_ERROR, l)) ∧
    (on_time < period → l.mode = LedMode.NORMAL →
      led_blink true numOf num on_time period b l =
        (led_status_t.eLED_OK,
          { l with mode := LedMode.BLINK, on_time := on_time, period := period,
                   per_time := 0,
                   blink_cnt :=
                     if b = led_blink_t.eLED_BLINK_CONTINUOUS then
                       LED_BLINK_CNT_CONT_VAL
                     else b.toUint8 })) := by
  constructor
  · intro h
    unfold led_blink
    rw [if_pos rfl, if_neg (fun hc => h ⟨hc.2.1, hc.2.2⟩)]
  · intro h1 h2
    unfold led_blink
    rw [if_pos rfl, if_pos ⟨hnum, h1, h2⟩]

/-- Witness for C6: a concrete accepted 3x blink command. -/
theorem C6_blink_guards_witness :
    led_blink true 1 0 (1/2) 1 led_blink_t.eLED_BLINK_3X wLed =
      (led_status_t.eLED_OK,
        { wLed with mode := LedMode.BLINK, on_time := 1/2, period := 1,
                    per_time := 0, blink_cnt := 2 }) :=
  (C6_blink_guards 1 0 (1/2) 1 led_blink_t.eLED_BLINK_3X wLed (by decide)).2
    (by norm_num) rfl

/-- Counterexample for C7: with the system initialized and the LED mid-blink
(mode BLINK, not NORMAL), `led_set_smooth` succeeds and overwrites the mode,
instead of rejecting with an error and leaving the state unchanged. -/
theorem C7_set_smooth_cex :
    (led_set_smooth true 1 0 led_state_t.eLED_ON wBlink).1 = led_status_t.eLED_OK ∧
    (led_set_smooth true 1 0 led_state_t.eLED_ON wBlink).2.mode = LedMode.FADE_IN := by
  decide

/-- Claim C7 as amended: `led_set_smooth` checks only the init guard and the
LED index — it does not require NORMAL mode — and when accepted it sets the
mode to FADE_IN for state ON and FADE_OUT for state OFF. -/
theorem C7_set_smooth_amended (numOf num : Nat) (st : led_state_t) (l : Led)
    (hnum : num < numOf) :
    led_set_smooth true numOf num st l =
      (led_status_t.eLED_OK,
        { l with mode := if st = led_state_t.eLED_ON then LedMode.FADE_IN
                         else LedMode.FADE_OUT }) := by
  unfold led_set_smooth
  rw [if_pos rfl, if_pos hnum]

/-- Witness for the amended C7 at a concrete mid-blink state. -/
theorem C7_set_smooth_amended_witness :
    led_set_smooth true 1 0 led_state_t.eLED_OFF wBlink =
      (led_status_t.eLED_OK, { wBlink with mode := LedMode.FADE_OUT }) :=
  C7_set_smooth_amended 1 0 led_state_t.eLED_OFF wBlink (by decide)

/-- Claim C8: every command invoked while the init flag is cleared (before
init or after de-init) returns the init-error status and leaves the LED
record unchanged; `led_deinit` clears the init flag (and is a no-op on an
uninitialized system). -/
theorem C8_commands_not_init (numOf num : Nat) (st ist : led_state_t)
    (on_time period : ℚ) (b : led_blink_t) (cfg : Option led_fade_cfg_t) (l : Led) :
    led_set false numOf num st l = (led_status_t.eLED_ERROR_INIT, l) ∧
    led_toggle false numOf num l = (led_status_t.eLED_ERROR_INIT, l) ∧
    led_blink false numOf num on_time period b l = (led_status_t.eLED_ERROR_INIT, l) ∧
    led_set_smooth false numOf num st l = (led_status_t.eLED_ERROR_INIT, l) ∧
    led_blink_smooth false numOf num on_time period b l =
      (led_status_t.eLED_ERROR_INIT, l) ∧
    led_set_fade_cfg false numOf num cfg l = (led_status_t.eLED_ERROR_INIT, l) ∧
    (led_deinit ist (true, l)).2.1 = false ∧
    led_deinit ist (false, l) = (led_status_t.eLED_OK, (false, l)) := by
  refine ⟨?_, ?_, ?_, ?_, ?_, ?_, rfl, rfl⟩ <;>
    simp [led_set, led_toggle, led_blink, led_set_smooth, led_blink_smooth,
      led_set_fade_cfg]

/-- Claim C9, failing input: `led_is_on` called with a NULL output pointer on
an initialized system with a valid index reports success and still performs
the store through the pointer (the C code has no NULL check on `p_is_on`),
instead of returning an invalid-argument error without dereferencing. -/
theorem C9_is_on_null_write :
    (led_is_on true 1 0 true (ledInitRecord led_state_t.eLED_OFF)).1 =
      led_status_t.eLED_OK ∧
    ((led_is_on true 1 0 true (ledInitRecord led_state_t.eLED_OFF)).2).isSome = true := by
  decide

/-- Claim C10: `led_set` and `led_toggle` on an initialized system with a
valid index change only `mode` and `duty`; every other field of the runtime
record is preserved. -/
theorem C10_set_toggle_frame (numOf num : Nat) (st : led_state_t) (l : Led)
    (hnum : num < numOf) :
    ((led_set true numOf num st l).2.max_duty = l.max_duty ∧
     (led_set true numOf num st l).2.min_duty = l.min_duty ∧
     (led_set true numOf num st l).2.fade_time = l.fade_time ∧
     (led_set true numOf num st l).2.fade_in_k = l.fade_in_k ∧
     (led_set true numOf num st l).2.fade_out_k = l.fade_out_k ∧
     (led_set true numOf num st l).2.fade_out_time = l.fade_out_time ∧
     (led_set true numOf num st l).2.period = l.period ∧
     (led_set true numOf num st l).2.per_time = l.per_time ∧
     (led_set true numOf num st l).2.on_time = l.on_time ∧
     (led_set true numOf num st l).2.active_time = l.active_time ∧
     (led_set true numOf num st l).2.blink_cnt = l.blink_cnt) ∧
    ((led_toggle true numOf num l).2.max_duty = l.max_duty ∧
     (led_toggle true numOf num l).2.min_duty = l.min_duty ∧
     (led_toggle true numOf num l).2.fade_time = l.fade_time ∧
     (led_toggle true numOf num l).2.fade_in_k = l.fade_in_k ∧
     (led_toggle true numOf num l).2.fade_out_k = l.fade_out_k ∧
     (led_toggle true numOf num l).2.fade_out_time = l.fade_out_time ∧
     (led_toggle true numOf num l).2.period = l.period ∧
     (led_toggle true numOf num l).2.per_time = l.per_time ∧
     (led_toggle true numOf num l).2.on_time = l.on_time ∧
     (led_toggle true numOf num l).2.active_time = l.active_time ∧
     (led_toggle true numOf num l).2.blink_cnt = l.blink_cnt) := by
  constructor <;>
    refine ⟨?_, ?_, ?_, ?_, ?_, ?_, ?_, ?_, ?_, ?_, ?_⟩ <;>
    simp [led_set, led_toggle, led_set_one, hnum]

/-- Duty bounds are preserved by one fade-in step. -/
lemma fade_in_hndl_bounds (dt : ℚ) (em : LedMode) (l : Led) (hdt : 0 ≤ dt)
    (hki : 0 ≤ l.fade_in_k) (hft : 0 ≤ l.fade_time) (hmm : l.min_duty ≤ l.max_duty)
    (h1 : l.min_duty ≤ l.duty) (h2 : l.duty ≤ l.max_duty) :
    (led_fade_in_hndl dt em l).min_duty ≤ (led_fade_in_hndl dt em l).duty ∧
    (led_fade_in_hndl dt em l).duty ≤ (led_fade_in_hndl dt em l).max_duty := by
  rcases fade_in_cases dt em l with ⟨hle, heq⟩ | ⟨hgt, heq⟩
  · rw [heq]
    constructor
    · show l.min_duty ≤ l.duty + l.fade_in_k * l.fade_time * dt
      have hnn : 0 ≤ l.fade_in_k * l.fade_time * dt :=
        mul_nonneg (mul_nonneg hki hft) hdt
      linarith
    · exact hle
  · rw [heq]
    exact ⟨hmm, le_rfl⟩

/-- Duty bounds are preserved by one fade-out step. -/
lemma fade_out_hndl_bounds (dt : ℚ) (em : LedMode) (l : Led) (hdt : 0 ≤ dt)
    (hko : 0 ≤ l.fade_out_k) (hmm : l.min_duty ≤ l.max_duty)
    (h2 : l.duty ≤ l.max_duty) :
    (led_fade_out_hndl dt em l).min_duty ≤ (led_fade_out_hndl dt em l).duty ∧
    (led_fade_out_hndl dt em l).duty ≤ (led_fade_out_hndl dt em l).max_duty := by
  rcases fade_out_cases dt em l with ⟨hgt, heq⟩ | ⟨hle, heq⟩
  · rw [heq]
    constructor
    · show l.min_duty ≤ _
      have h1000 : (0 : ℚ) ≤ 1/1000 := by norm_num
      linarith [hgt]
    · show (if l.fade_out_time - l.fade_time > 0
          then l.duty - l.fade_out_k * ((l.fade_out_time - l.fade_time) * dt)
          else l.min_duty) ≤ l.max_duty
      by_cases hc : l.fade_out_time - l.fade_time > 0
      · rw [if_pos hc]
        have hnn : 0 ≤ l.fade_out_k * ((l.fade_out_time - l.fade_time) * dt) :=
          mul_nonneg hko (mul_nonneg (le_of_lt hc) hdt)
        linarith
      · rw [if_neg hc]
        exact hmm
  · rw [heq]
    exact ⟨le_rfl, hmm⟩

/-- One handler tick preserves the duty bounds of a single LED, given
nonnegative fade coefficients and a consistent configuration. -/
lemma hndl_one_bounds (dt : ℚ) (l : Led) (hdt : 0 ≤ dt) (hki : 0 ≤ l.fade_in_k)
    (hko : 0 ≤ l.fade_out_k) (hft : 0 ≤ l.fade_time) (hmm : l.min_duty ≤ l.max_duty)
    (h1 : l.min_duty ≤ l.duty) (h2 : l.duty ≤ l.max_duty) :
    (led_hndl_one dt l).min_duty ≤ (led_hndl_one dt l).duty ∧
    (led_hndl_one dt l).duty ≤ (led_hndl_one dt l).max_duty := by
  have hred : (led_hndl_one dt l).min_duty = (led_dispatch dt l).min_duty ∧
      (led_hndl_one dt l).duty = (led_dispatch dt l).duty ∧
      (led_hndl_one dt l).max_duty = (led_dispatch dt l).max_duty := by
    refine ⟨?_, ?_, ?_⟩ <;> simp [led_hndl_one]
  rw [hred.1, hred.2.1, hred.2.2]
  cases hmode : l.mode
  case NORMAL =>
    rw [dispatch_of_normal dt l hmode]
    exact ⟨h1, h2⟩
  case FADE_TOGGLE =>
    rw [dispatch_of_fade_toggle dt l hmode]
    exact ⟨h1, h2⟩
  case FADE_IN =>
    rw [dispatch_of_fade_in dt l hmode]
    exact fade_in_hndl_bounds dt LedMode.NORMAL l hdt hki hft hmm h1 h2
  case FADE_OUT =>
    rw [dispatch_of_fade_out dt l hmode]
    exact fade_out_hndl_bounds dt LedMode.NORMAL l hdt hko hmm h2
  case BLINK =>
    rw [dispatch_of_blink dt l hmode]
    unfold led_blink_hndl
    by_cases ho : led_is_on_time l = true
    · rw [if_pos ho]
      constructor <;> simp [hmm]
    · rw [if_neg ho]
      constructor <;> simp [hmm]
  case FADE_BLINK =>
    rw [dispatch_of_fade_blink dt l hmode]
    unfold led_fade_blink_hndl
    by_cases ho : led_is_on_time l = true
    · rw [if_pos ho]
      constructor
      · simpa using (fade_in_hndl_bounds dt LedMode.FADE_BLINK l hdt hki hft hmm h1 h2).1
      · simpa using (fade_in_hndl_bounds dt LedMode.FADE_BLINK l hdt hki hft hmm h1 h2).2
    · rw [if_neg ho]
      constructor
      · simpa using (fade_out_hndl_bounds dt LedMode.FADE_BLINK l hdt hko hmm h2).1
      · simpa using (fade_out_hndl_bounds dt LedMode.FADE_BLINK l hdt hko hmm h2).2

/-- A fade configuration raising the off-brightness floor above the current
duty. -/
def c1Cfg : led_fade_cfg_t :=
  { fade_in_time := 1, fade_out_time := 1, max_duty := 50, min_duty := 10 }

/-- The LED reached from init (initial state OFF, duty 0) by the accepted
command `led_set_fade_cfg` with `c1Cfg`: its `min_duty` is now 10 while its
duty is still 0. -/
def c1Led : Led :=
  (led_set_fade_cfg true 1 0 (some c1Cfg) (ledInitRecord led_state_t.eLED_OFF)).2

/-- Counterexample for C1: after init and an accepted `led_set_fade_cfg`
raising `min_duty` to 10, a `led_hndl` call on the initialized system leaves
the LED (in NORMAL mode) with `duty = 0 < min_duty`, so the claimed
invariant does not hold after every handler call. -/
theorem C1_invariant_cex :
    (led_hndl (1/100) (true, [c1Led])).2.2 = [led_hndl_one (1/100) c1Led] ∧
    ¬ ((led_hndl_one (1/100) c1Led).min_duty ≤ (led_hndl_one (1/100) c1Led).duty) := by
  have hc1 : c1Led =
      { duty := 0, max_duty := 50, min_duty := 10, fade_time := 0,
        fade_in_k := 80, fade_out_k := 80, fade_out_time := 1, period := 0,
        per_time := 0, on_time := 0, active_time := 0, mode := LedMode.NORMAL,
        blink_cnt := 0 } := by
    unfold c1Led c1Cfg ledInitRecord led_set_one led_set_fade_cfg
    norm_num
    decide
  have hstep : led_hndl_one (1/100) c1Led = c1Led := by
    rw [hc1]
    norm_num [led_hndl_one, led_dispatch, led_hndl_period_time, led_manage_time]
  refine ⟨by simp [led_hndl], ?_⟩
  rw [hstep, hc1]
  norm_num

/-- Claim C1 as amended: a `led_hndl` call on an initialized system preserves
`min_duty <= duty <= max_duty` for every LED, provided the bounds held
before the call and the fade coefficients, fade time and tick period are
nonnegative with `min_duty <= max_duty`; the handler itself never drives the
duty out of range (only `led_set_fade_cfg` can break the invariant, by
moving the bounds away from the current duty). -/
theorem C1_hndl_preserves_duty_bounds (dt : ℚ) (ls : List Led) (hdt : 0 ≤ dt)
    (h : ∀ l ∈ ls, 0 ≤ l.fade_in_k ∧ 0 ≤ l.fade_out_k ∧ 0 ≤ l.fade_time ∧
      l.min_duty ≤ l.max_duty ∧ l.min_duty ≤ l.duty ∧ l.duty ≤ l.max_duty) :
    ∀ l1 ∈ (led_hndl dt (true, ls)).2.2,
      l1.min_duty ≤ l1.duty ∧ l1.duty ≤ l1.max_duty := by
  intro l1 hl1
  simp only [led_hndl] at hl1
  rw [List.mem_map] at hl1
  obtain ⟨l, hl, rfl⟩ := hl1
  obtain ⟨hki, hko, hft, hmm, h1, h2⟩ := h l hl
  exact hndl_one_bounds dt l hdt hki hko hft hmm h1 h2

/-- Witness for the amended C1 on a concrete one-LED system. -/
theorem C1_hndl_preserves_duty_bounds_witness :
    (led_hndl_one (1/100) wLed).min_duty ≤ (led_hndl_one (1/100) wLed).duty ∧
    (led_hndl_one (1/100) wLed).duty ≤ (led_hndl_one (1/100) wLed).max_duty :=
  C1_hndl_preserves_duty_bounds (1/100) [wLed] (by norm_num) (by decide)
    (led_hndl_one (1/100) wLed) (by simp [led_hndl])

/-- Witness for C10 at a concrete set command (the fade-time frame fact). -/
theorem C10_set_toggle_frame_witness :
    (led_set true 1 0 led_state_t.eLED_ON wLed).2.fade_time = wLed.fade_time :=
  (C10_set_toggle_frame 1 0 led_state_t.eLED_ON wLed (by decide)).1.2.2.1

/-! ### Blink counter and pulse-count machinery for C2 -/

/-- The boolean `led_is_on_time` decodes to the on-window comparison. -/
lemma is_on_time_iff (l : Led) : led_is_on_time l = true ↔ l.per_time < l.on_time := by
  unfold led_is_on_time
  split <;> simp [*]

/-- The boolean `led_is_period_time` decodes to the wrap comparison. -/
lemma is_period_time_iff (l : Led) :
    led_is_period_time l = true ↔ l.per_time ≥ l.period := by
  unfold led_is_period_time
  split <;> simp [*]

/-- Off a period boundary the counter handler is the identity. -/
lemma cnt_hndl_of_not_period (l : Led) (h : ¬ l.per_time ≥ l.period) :
    led_blink_cnt_hndl l = l := by
  unfold led_blink_cnt_hndl led_is_period_time
  rw [if_neg h]
  simp

/-- On a period boundary the sentinel counter is left unchanged. -/
lemma cnt_hndl_event_sentinel (l : Led) (h : l.per_time ≥ l.period)
    (hc : l.blink_cnt = 255) : led_blink_cnt_hndl l = l := by
  unfold led_blink_cnt_hndl led_is_period_time LED_BLINK_CNT_CONT_VAL
  rw [if_pos h]
  simp [hc]

/-- On a period boundary a zero counter forces the mode to NORMAL. -/
lemma cnt_hndl_event_zero (l : Led) (h : l.per_time ≥ l.period)
    (hc : l.blink_cnt = 0) :
    led_blink_cnt_hndl l = { l with mode := LedMode.NORMAL } := by
  unfold led_blink_cnt_hndl led_is_period_time LED_BLINK_CNT_CONT_VAL
  rw [if_pos h]
  simp [hc]

/-- On a period boundary a positive non-sentinel counter is decremented. -/
lemma cnt_hndl_event_pos (l : Led) (h : l.per_time ≥ l.period)
    (hc255 : l.blink_cnt ≠ 255) (hc0 : l.blink_cnt ≠ 0) :
    led_blink_cnt_hndl l = { l with blink_cnt := l.blink_cnt - 1 } := by
  unfold led_blink_cnt_hndl led_is_period_time LED_BLINK_CNT_CONT_VAL
  rw [if_pos h]
  simp [hc255, hc0]

/-- One BLINK-mode tick strictly inside the period: the duty snaps per the
on-window, the counter and timing configuration stay put, `per_time`
advances by `dt`. -/
lemma hndl_one_blink_step (dt : ℚ) (l : Led) (hm : l.mode = LedMode.BLINK)
    (hlt : l.per_time < l.period) :
    (led_hndl_one dt l).mode = LedMode.BLINK ∧
    (led_hndl_one dt l).per_time = l.per_time + dt ∧
    (led_hndl_one dt l).blink_cnt = l.blink_cnt ∧
    (led_hndl_one dt l).on_time = l.on_time ∧
    (led_hndl_one dt l).period = l.period ∧
    (led_hndl_one dt l).max_duty = l.max_duty ∧
    (led_hndl_one dt l).min_duty = l.min_duty ∧
    (led_hndl_one dt l).duty =
      (if l.per_time < l.on_time then l.max_duty else l.min_duty) := by
  have hdisp : led_dispatch dt l =
      { l with duty := if l.per_time < l.on_time then l.max_duty else l.min_duty } := by
    rw [dispatch_of_blink dt l hm]
    unfold led_blink_hndl
    by_cases ho : led_is_on_time l = true
    · rw [if_pos ho,
        cnt_hndl_of_not_period { l with duty := l.max_duty } (not_le.mpr hlt),
        if_pos ((is_on_time_iff l).mp ho)]
    · rw [if_neg ho,
        cnt_hndl_of_not_period { l with duty := l.min_duty } (not_le.mpr hlt),
        if_neg (fun hp => ho ((is_on_time_iff l).mpr hp))]
  refine ⟨?_, ?_, ?_, ?_, ?_, ?_, ?_, ?_⟩ <;>
    simp [led_hndl_one, hdisp, led_hndl_period_time_of_lt, hlt, hm]

/-- One BLINK-mode tick on the period boundary: the duty is forced to
`min_duty` (the on-window is over), the counter handler fires, `per_time`
wraps to 0. -/
lemma hndl_one_blink_event (dt : ℚ) (l : Led) (hm : l.mode = LedMode.BLINK)
    (hge : l.per_time ≥ l.period) (hoff : l.on_time ≤ l.per_time)
    (hc255 : l.blink_cnt ≠ 255) :
    (led_hndl_one dt l).mode =
      (if l.blink_cnt = 0 then LedMode.NORMAL else LedMode.BLINK) ∧
    (led_hndl_one dt l).per_time = 0 ∧
    (led_hndl_one dt l).blink_cnt = l.blink_cnt - 1 ∧
    (led_hndl_one dt l).on_time = l.on_time ∧
    (led_hndl_one dt l).period = l.period ∧
    (led_hndl_one dt l).max_duty = l.max_duty ∧
    (led_hndl_one dt l).min_duty = l.min_duty ∧
    (led_hndl_one dt l).duty = l.min_duty := by
  have hno : ¬ l.per_time < l.on_time := not_lt.mpr hoff
  by_cases hc0 : l.blink_cnt = 0
  · have hdisp : led_dispatch dt l =
        { l with duty := l.min_duty, mode := LedMode.NORMAL } := by
      rw [dispatch_of_blink dt l hm]
      unfold led_blink_hndl
      rw [if_neg (fun ho => hno ((is_on_time_iff l).mp ho)),
        cnt_hndl_event_zero { l with duty := l.min_duty } hge hc0]
    refine ⟨?_, ?_, ?_, ?_, ?_, ?_, ?_, ?_⟩ <;>
      simp [led_hndl_one, hdisp, led_hndl_period_time_of_ge, hge, hc0]
  · have hdisp : led_dispatch dt l =
        { l with duty := l.min_duty, blink_cnt := l.blink_cnt - 1 } := by
      rw [dispatch_of_blink dt l hm]
      unfold led_blink_hndl
      rw [if_neg (fun ho => hno ((is_on_time_iff l).mp ho)),
        cnt_hndl_event_pos { l with duty := l.min_duty } hge hc255 hc0]
    refine ⟨?_, ?_, ?_, ?_, ?_, ?_, ?_, ?_⟩ <;>
      simp [led_hndl_one, hdisp, led_hndl_period_time_of_ge, hge, hc0, hm]

/-- Invariant of a LED part-way through a blink cycle: mode BLINK, counter
`c`, blink timer at `p`, and the timing/brightness configuration of `l0`. -/
def BlinkMid (l0 : Led) (c : ℕ) (p : ℚ) (l : Led) : Prop :=
  l.mode = LedMode.BLINK ∧ l.per_time = p ∧ l.blink_cnt = c ∧
  l.on_time = l0.on_time ∧ l.period = l0.period ∧
  l.max_duty = l0.max_duty ∧ l.min_duty = l0.min_duty

/-- Running `j` ticks from a cycle start accumulates `j * dt` on the blink
timer while staying strictly inside the period. -/
lemma blink_mid_iter (dt : ℚ) (l0 : Led) (c k : ℕ)
    (hk' : ∀ j < k, (j : ℚ) * dt < l0.period) :
    ∀ j ≤ k, ∀ l, BlinkMid l0 c 0 l →
      BlinkMid l0 c ((j : ℚ) * dt) ((led_hndl_one dt)^[j] l) := by
  intro j
  induction j with
  | zero =>
    intro _ l hl
    simpa using hl
  | succ j ih =>
    intro hj l hl
    have hjk : j < k := Nat.lt_of_succ_le hj
    obtain ⟨m1, m2, m3, m4, m5, m6, m7⟩ := ih (Nat.le_of_succ_le hj) l hl
    have hlt : ((led_hndl_one dt)^[j] l).per_time < ((led_hndl_one dt)^[j] l).period := by
      rw [m2, m5]
      exact hk' j hjk
    obtain ⟨s1, s2, s3, s4, s5, s6, s7, _⟩ := hndl_one_blink_step dt _ m1 hlt
    rw [Function.iterate_succ_apply']
    refine ⟨s1, ?_, ?_, ?_, ?_, ?_, ?_⟩
    · rw [s2, m2]
      push_cast
      ring
    · rw [s3, m3]
    · rw [s4, m4]
    · rw [s5, m5]
    · rw [s6, m6]
    · rw [s7, m7]

/-- Waveform of one blink cycle: at tick `j` of the cycle the duty is
`max_duty` exactly while `j * dt` is inside the on-window (and in particular
`min_duty` on the boundary tick `j = k`). -/
lemma blink_cycle_duty (dt : ℚ) (l0 : Led) (c k : ℕ)
    (hk : l0.period ≤ (k : ℚ) * dt) (hk' : ∀ j < k, (j : ℚ) * dt < l0.period)
    (honp : l0.on_time < l0.period) (hc255 : c ≠ 255) :
    ∀ j ≤ k, ∀ l, BlinkMid l0 c 0 l →
      ((led_hndl_one dt)^[j+1] l).duty =
        (if (j : ℚ) * dt < l0.on_time then l0.max_duty else l0.min_duty) := by
  intro j hj l hl
  obtain ⟨m1, m2, m3, m4, m5, m6, m7⟩ := blink_mid_iter dt l0 c k hk' j hj l hl
  rw [Function.iterate_succ_apply']
  by_cases hjk : j < k
  · have hlt : ((led_hndl_one dt)^[j] l).per_time < ((led_hndl_one dt)^[j] l).period := by
      rw [m2, m5]
      exact hk' j hjk
    obtain ⟨_, _, _, _, _, _, _, s8⟩ := hndl_one_blink_step dt _ m1 hlt
    rw [s8, m2, m4, m6, m7]
  · have hjeq : j = k := le_antisymm hj (not_lt.mp hjk)
    subst hjeq
    have hge : ((led_hndl_one dt)^[j] l).per_time ≥ ((led_hndl_one dt)^[j] l).period := by
      rw [m2, m5]
      exact hk
    have hoff : ((led_hndl_one dt)^[j] l).on_time ≤ ((led_hndl_one dt)^[j] l).per_time := by
      rw [m2, m4]
      exact le_trans (le_of_lt honp) hk
    obtain ⟨_, _, _, _, _, _, _, s8⟩ :=
      hndl_one_blink_event dt _ m1 hge hoff (by rw [m3]; exact hc255)
    rw [s8, m7, if_neg (not_lt.mpr (le_trans (le_of_lt honp) hk))]

/-- A full blink cycle with a positive non-sentinel counter returns to a
cycle start with the counter decremented. -/
lemma blink_cycle_advance (dt : ℚ) (l0 : Led) (c k : ℕ)
    (hk : l0.period ≤ (k : ℚ) * dt) (hk' : ∀ j < k, (j : ℚ) * dt < l0.period)
    (honp : l0.on_time < l0.period) (hc255 : c ≠ 255) (hc0 : c ≠ 0) :
    ∀ l, BlinkMid l0 c 0 l → BlinkMid l0 (c-1) 0 ((led_hndl_one dt)^[k+1] l) := by
  intro l hl
  obtain ⟨m1, m2, m3, m4, m5, m6, m7⟩ := blink_mid_iter dt l0 c k hk' k le_rfl l hl
  rw [Function.iterate_succ_apply']
  have hge : ((led_hndl_one dt)^[k] l).per_time ≥ ((led_hndl_one dt)^[k] l).period := by
    rw [m2, m5]
    exact hk
  have hoff : ((led_hndl_one dt)^[k] l).on_time ≤ ((led_hndl_one dt)^[k] l).per_time := by
    rw [m2, m4]
    exact le_trans (le_of_lt honp) hk
  obtain ⟨s1, s2, s3, s4, s5, s6, s7, _⟩ :=
    hndl_one_blink_event dt _ m1 hge hoff (by rw [m3]; exact hc255)
  refine ⟨?_, s2, ?_, ?_, ?_, ?_, ?_⟩
  · rw [s1, m3, if_neg hc0]
  · rw [s3, m3]
  · rw [s4, m4]
  · rw [s5, m5]
  · rw [s6, m6]
  · rw [s7, m7]

/-- A full blink cycle with the counter already at 0 exits to NORMAL. -/
lemma blink_cycle_exit (dt : ℚ) (l0 : Led) (k : ℕ)
    (hk : l0.period ≤ (k : ℚ) * dt) (hk' : ∀ j < k, (j : ℚ) * dt < l0.period)
    (honp : l0.on_time < l0.period) :
    ∀ l, BlinkMid l0 0 0 l → ((led_hndl_one dt)^[k+1] l).mode = LedMode.NORMAL := by
  intro l hl
  obtain ⟨m1, m2, m3, m4, m5, m6, m7⟩ := blink_mid_iter dt l0 0 k hk' k le_rfl l hl
  rw [Function.iterate_succ_apply']
  have hge : ((led_hndl_one dt)^[k] l).per_time ≥ ((led_hndl_one dt)^[k] l).period := by
    rw [m2, m5]
    exact hk
  have hoff : ((led_hndl_one dt)^[k] l).on_time ≤ ((led_hndl_one dt)^[k] l).per_time := by
    rw [m2, m4]
    exact le_trans (le_of_lt honp) hk
  have hstep := hndl_one_blink_event dt _ m1 hge hoff (by rw [m3]; simp)
  rw [hstep.1, m3, if_pos rfl]

/-- After `i` full cycles the counter has dropped by `i`. -/
lemma blink_cycles (dt : ℚ) (l0 : Led) (k N : ℕ)
    (hk : l0.period ≤ (k : ℚ) * dt) (hk' : ∀ j < k, (j : ℚ) * dt < l0.period)
    (honp : l0.on_time < l0.period) (hN : N < 255) (hstart : BlinkMid l0 N 0 l0) :
    ∀ i ≤ N, BlinkMid l0 (N - i) 0 ((led_hndl_one dt)^[i*(k+1)] l0) := by
  intro i
  induction i with
  | zero =>
    intro _
    simpa using hstart
  | succ i ih =>
    intro hi
    have hmid := ih (Nat.le_of_succ_le hi)
    have hc0 : N - i ≠ 0 := Nat.sub_ne_zero_of_lt (Nat.lt_of_succ_le hi)
    have hc255 : N - i ≠ 255 := by
      have := Nat.sub_le N i
      omega
    have hadv := blink_cycle_advance dt l0 (N - i) k hk hk' honp hc255 hc0 _ hmid
    have harith : (i+1)*(k+1) = (k+1) + i*(k+1) := by ring
    rw [harith, Function.iterate_add_apply]
    have hsub : N - (i+1) = (N - i) - 1 := by omega
    rw [hsub]
    exact hadv

/-- Claim C2: on each tick with the period-elapsed predicate true the blink
counter handler leaves the continuous sentinel unchanged, exits to NORMAL on
count 0 and otherwise decrements; consequently a blink started with finite
count `N` runs `N+1` full on/off cycles — each showing `max_duty` exactly
while the cycle time is inside the on-window, so `N+1` on-pulses — before the
mode returns to NORMAL on the `(N+1)`-th period boundary. Here `k` is the
number of ticks whose accumulated time first reaches the period, so a cycle
spans `k+1` ticks. -/
theorem C2_blink_counter (dt on_time period : ℚ) (N k : ℕ) (l0 : Led)
    (hdt : 0 < dt) (hon : 0 < on_time) (honp : on_time < period) (hN : N < 255)
    (hk : period ≤ (k : ℚ) * dt) (hk' : ∀ j < k, (j : ℚ) * dt < period)
    (hmode : l0.mode = LedMode.BLINK) (hper : l0.per_time = 0)
    (hcnt : l0.blink_cnt = N) (hont : l0.on_time = on_time) (hpd : l0.period = period) :
    (∀ l : Led, led_is_period_time l = true →
      (l.blink_cnt = 255 → led_blink_cnt_hndl l = l) ∧
      (l.blink_cnt = 0 → led_blink_cnt_hndl l = { l with mode := LedMode.NORMAL }) ∧
      (l.blink_cnt ≠ 255 → l.blink_cnt ≠ 0 →
        led_blink_cnt_hndl l = { l with blink_cnt := l.blink_cnt - 1 })) ∧
    (∀ i ≤ N, ∀ j ≤ k,
      ((led_hndl_one dt)^[i * (k+1) + (j+1)] l0).duty =
        (if (j : ℚ) * dt < on_time then l0.max_duty else l0.min_duty)) ∧
    ((led_hndl_one dt)^[(N+1) * (k+1)] l0).mode = LedMode.NORMAL := by
  subst hont
  subst hpd
  have hstart : BlinkMid l0 N 0 l0 := ⟨hmode, hper, hcnt, rfl, rfl, rfl, rfl⟩
  refine ⟨?_, ?_, ?_⟩
  · intro l hev
    have hge : l.per_time ≥ l.period := (is_period_time_iff l).mp hev
    exact ⟨fun hc => cnt_hndl_event_sentinel l hge hc,
      fun hc => cnt_hndl_event_zero l hge hc,
      fun hc255 hc0 => cnt_hndl_event_pos l hge hc255 hc0⟩
  · intro i hi j hj
    have hmid := blink_cycles dt l0 k N hk hk' honp hN hstart i hi
    have hc255 : N - i ≠ 255 := by
      have := Nat.sub_le N i
      omega
    have harith : i * (k+1) + (j+1) = (j+1) + i*(k+1) := by ring
    rw [harith, Function.iterate_add_apply]
    exact blink_cycle_duty dt l0 (N - i) k hk hk' honp hc255 j hj _ hmid
  · have hmid := blink_cycles dt l0 k N hk hk' honp hN hstart N le_rfl
    have harith : (N+1) * (k+1) = (k+1) + N*(k+1) := by ring
    rw [harith, Function.iterate_add_apply]
    rw [Nat.sub_self N] at hmid
    exact blink_cycle_exit dt l0 k hk hk' honp _ hmid

/-- A LED just put into BLINK mode with count 1, on-time 1/5 and period 1/2. -/
def w2Led : Led :=
  { duty := 0, max_duty := 100, min_duty := 0, fade_time := 0, fade_in_k := 2,
    fade_out_k := 2, fade_out_time := 1, period := 1/2, per_time := 0, on_time := 1/5,
    active_time := 0, mode := LedMode.BLINK, blink_cnt := 1 }

/-- Witness for C2: with dt = 1/10 a period of 1/2 spans k = 5 increments, and
a count-1 blink returns to NORMAL after exactly 2 cycles of 6 ticks. -/
theorem C2_blink_counter_witness :
    ((led_hndl_one (1/10))^[(1+1) * (5+1)] w2Led).mode = LedMode.NORMAL :=
  (C2_blink_counter (1/10) (1/5) (1/2) 1 5 w2Led (by norm_num) (by norm_num)
    (by norm_num) (by norm_num) (by push_cast; norm_num)
    (by
      intro j hj
      have h4 : (j : ℚ) ≤ 4 := by exact_mod_cast Nat.lt_succ_iff.mp hj
      linarith)
    rfl rfl rfl rfl rfl).2.2

end LedSpec
